import Mathlib

/-!
Verification of the KMGI-web / ai-website-builder sources.

The development shallowly embeds the TypeScript services of the repository:

* apps/api/src/wordpress/wordpress.service.ts: WordPressService (the
  page -> HTML / Gutenberg compiler, provisionSite) and AiService
  (generateSiteContent and its static fallback);
* the BillingService (hasActiveSubscription);
* the JobsProcessor (processJob dispatch and the generate handler).

Strings of the page JSON schema (block type, text variant, button variant,
list layout, section type) are TypeScript string-literal unions; at runtime
they are plain strings read back from a JSON column, so they are modelled
as String.  Literal braces inside compiled markup are written with the
escapes x7b and x7d.
-/

namespace Builder

/-- TextProps of the shared page schema: content plus a variant string
(h1, h2, h3, body or small in the typed union). -/
structure TextProps where
  content : String
  variant : String
deriving DecidableEq

/-- ImageProps of the shared page schema. -/
structure ImageProps where
  src : String
  alt : String
deriving DecidableEq

/-- ButtonProps of the shared page schema: variant is primary or secondary
in the typed union. -/
structure ButtonProps where
  text : String
  href : String
  variant : String
deriving DecidableEq

/-- ListItem of the shared page schema; icon is optional and unused by the
compilers. -/
structure ListItem where
  id : String
  title : String
  description : String
  icon : Option String
deriving DecidableEq

/-- ListProps of the shared page schema: layout is grid or list in the
typed union. -/
structure ListProps where
  items : List ListItem
  layout : String
deriving DecidableEq

/-- The BlockProps union of the shared page schema. -/
inductive BlockProps where
  | text (p : TextProps)
  | image (p : ImageProps)
  | button (p : ButtonProps)
  | list (p : ListProps)
deriving DecidableEq

/-- A Block of the shared page schema.  The type field is the runtime tag
string; the typed union BlockType restricts it to text, image, button or
list, but the JSON column can hold anything, which is what the default
branch of the compilers handles. -/
structure Block where
  id : String
  type : String
  props : BlockProps
deriving DecidableEq

/-- A Section of the shared page schema. -/
structure Section where
  id : String
  type : String
  variant : Nat
  blocks : List Block
deriving DecidableEq

/-- A Page of the shared page schema. -/
structure Page where
  title : String
  slug : String
  sections : List Section
deriving DecidableEq

/-- SiteSettings of the shared schema. -/
structure SiteSettings where
  businessName : String
  industry : String
  stylePreset : String
  accentColor : String
  primaryCta : String
  contactEmail : String
  contactPhone : String
deriving DecidableEq

/-- SiteContent of the shared schema. -/
structure SiteContent where
  pages : List Page
  settings : SiteSettings
deriving DecidableEq

/-- The TypeScript assertion block.props as TextProps.  On a block whose
tag matches its payload this is the identity; a mismatched object would
read each field as the JS undefined value, which a template literal prints
as the string undefined. -/
def BlockProps.asText : BlockProps → TextProps
  | .text p => p
  | _ => { content := "undefined", variant := "undefined" }

/-- The TypeScript assertion block.props as ImageProps (see asText). -/
def BlockProps.asImage : BlockProps → ImageProps
  | .image p => p
  | _ => { src := "undefined", alt := "undefined" }

/-- The TypeScript assertion block.props as ButtonProps (see asText). -/
def BlockProps.asButton : BlockProps → ButtonProps
  | .button p => p
  | _ => { text := "undefined", href := "undefined", variant := "undefined" }

/-- The TypeScript assertion block.props as ListProps.  A mismatched object
would make the later items.map call raise a TypeError in JS; the default
keeps the model total and is never reached from a well-typed block. -/
def BlockProps.asList : BlockProps → ListProps
  | .list p => p
  | _ => { items := [], layout := "undefined" }

/-- A block is well typed when a tag out of the four known ones carries the
matching payload, as the static BlockType/BlockProps union guarantees. -/
def Block.wellTyped (b : Block) : Prop :=
  (b.type = "text" → ∃ p, b.props = BlockProps.text p)
  ∧ (b.type = "image" → ∃ p, b.props = BlockProps.image p)
  ∧ (b.type = "button" → ∃ p, b.props = BlockProps.button p)
  ∧ (b.type = "list" → ∃ p, b.props = BlockProps.list p)

/-- getTextTag of WordPressService: switch over the variant with default
branch p. -/
def getTextTag (variant : String) : String :=
  if variant = "h1" then "h1"
  else if variant = "h2" then "h2"
  else if variant = "h3" then "h3"
  else if variant = "small" then "small"
  else "p"

/-- One global single-character replacement, the model of the JS call
str.replace of a one-character global regex by a fixed string. -/
def replaceChar (pat : Char) (rep : List Char) : List Char → List Char
  | [] => []
  | c :: cs => (if c = pat then rep else [c]) ++ replaceChar pat rep cs

/-- escapeHtml of WordPressService: the ampersand is rewritten first, then
the four other characters, each by a global single-character replace. -/
def escapeHtml (s : String) : String :=
  String.mk (replaceChar (Char.ofNat 39) "&#039;".data
    (replaceChar (Char.ofNat 34) "&quot;".data
      (replaceChar '>' "&gt;".data
        (replaceChar '<' "&lt;".data
          (replaceChar '&' "&amp;".data s.data)))))

/-- compileBlockToHtml of WordPressService: a switch over block.type with a
default branch returning the empty string. -/
def compileBlockToHtml (block : Block) (accentColor : String) : String :=
  if block.type = "text" then
    let props := block.props.asText
    let tag := getTextTag props.variant
    "<" ++ tag ++ ">" ++ escapeHtml props.content ++ "</" ++ tag ++ ">"
  else if block.type = "image" then
    let props := block.props.asImage
    "<figure class=\"wp-block-image\"><img src=\"" ++ props.src
      ++ "\" alt=\"" ++ escapeHtml props.alt ++ "\" /></figure>"
  else if block.type = "button" then
    let props := block.props.asButton
    let bgColor := if props.variant = "primary" then accentColor else "transparent"
    let textColor := if props.variant = "primary" then "#ffffff" else accentColor
    "<div class=\"wp-block-button\"><a class=\"wp-block-button__link\" href=\""
      ++ props.href ++ "\" style=\"background-color:" ++ bgColor ++ ";color:"
      ++ textColor ++ "\">" ++ escapeHtml props.text ++ "</a></div>"
  else if block.type = "list" then
    let props := block.props.asList
    let items := String.join (props.items.map (fun item =>
      "<li><strong>" ++ escapeHtml item.title ++ "</strong><p>"
        ++ escapeHtml item.description ++ "</p></li>"))
    "<ul class=\"wp-block-list layout-" ++ props.layout ++ "\">" ++ items ++ "</ul>"
  else
    ""

/-- compileBlockToGutenberg of WordPressService: a switch over block.type,
with a nested switch over the text variant, and a default branch returning
the empty string. -/
def compileBlockToGutenberg (block : Block) (accentColor : String) : String :=
  if block.type = "text" then
    let props := block.props.asText
    if props.variant = "h1" then
      "<!-- wp:heading \x7b\"level\":1\x7d -->\n<h1 class=\"wp-block-heading\">"
        ++ escapeHtml props.content ++ "</h1>\n<!-- /wp:heading -->"
    else if props.variant = "h2" then
      "<!-- wp:heading -->\n<h2 class=\"wp-block-heading\">"
        ++ escapeHtml props.content ++ "</h2>\n<!-- /wp:heading -->"
    else if props.variant = "h3" then
      "<!-- wp:heading \x7b\"level\":3\x7d -->\n<h3 class=\"wp-block-heading\">"
        ++ escapeHtml props.content ++ "</h3>\n<!-- /wp:heading -->"
    else if props.variant = "small" then
      "<!-- wp:paragraph \x7b\"fontSize\":\"small\"\x7d -->\n<p class=\"has-small-font-size\">"
        ++ escapeHtml props.content ++ "</p>\n<!-- /wp:paragraph -->"
    else
      "<!-- wp:paragraph -->\n<p>" ++ escapeHtml props.content
        ++ "</p>\n<!-- /wp:paragraph -->"
  else if block.type = "image" then
    let props := block.props.asImage
    "<!-- wp:image -->\n<figure class=\"wp-block-image\"><img src=\"" ++ props.src
      ++ "\" alt=\"" ++ escapeHtml props.alt ++ "\"/></figure>\n<!-- /wp:image -->"
  else if block.type = "button" then
    let props := block.props.asButton
    let bgColor := if props.variant = "primary" then accentColor else "transparent"
    "<!-- wp:buttons -->\n<div class=\"wp-block-buttons\"><!-- wp:button \x7b\"backgroundColor\":\""
      ++ bgColor ++ "\"\x7d -->\n<div class=\"wp-block-button\"><a class=\"wp-block-button__link wp-element-button\" href=\""
      ++ props.href ++ "\">" ++ escapeHtml props.text
      ++ "</a></div>\n<!-- /wp:button --></div>\n<!-- /wp:buttons -->"
  else if block.type = "list" then
    let props := block.props.asList
    let items := String.join (props.items.map (fun item =>
      "<li><strong>" ++ escapeHtml item.title ++ "</strong> - "
        ++ escapeHtml item.description ++ "</li>"))
    "<!-- wp:list -->\n<ul class=\"wp-block-list\">" ++ items ++ "</ul>\n<!-- /wp:list -->"
  else
    ""

/-- compileSectionToHtml of WordPressService. -/
def compileSectionToHtml (s : Section) (accentColor : String) : String :=
  let blocks := String.intercalate "\n" (s.blocks.map (fun b => compileBlockToHtml b accentColor))
  "<section class=\"wp-block-group section-" ++ s.type ++ "\" data-section-id=\""
    ++ s.id ++ "\">" ++ blocks ++ "</section>"

/-- compileSectionToGutenberg of WordPressService. -/
def compileSectionToGutenberg (s : Section) (accentColor : String) : String :=
  let blocks := String.intercalate "\n" (s.blocks.map (fun b => compileBlockToGutenberg b accentColor))
  "<!-- wp:group \x7b\"className\":\"section-" ++ s.type ++ "\"\x7d -->\n<div class=\"wp-block-group section-"
    ++ s.type ++ "\">" ++ blocks ++ "</div>\n<!-- /wp:group -->"

/-- compilePageToHtml of WordPressService. -/
def compilePageToHtml (page : Page) (accentColor : String) : String :=
  String.intercalate "\n" (page.sections.map (fun s => compileSectionToHtml s accentColor))

/-- compilePageToGutenberg of WordPressService. -/
def compilePageToGutenberg (page : Page) (accentColor : String) : String :=
  String.intercalate "\n\n" (page.sections.map (fun s => compileSectionToGutenberg s accentColor))

/-- The instance state of a WordPressService object: the two fields set in
its constructor from the configuration. -/
structure WordPressServiceState where
  wpCliPath : String
  wpMultisiteUrl : String
deriving DecidableEq

/-- Invocation of the compilePageToHtml method on a service instance: the
body reads no field and assigns no field, so the run pairs the pure result
with the unchanged instance. -/
def WordPressServiceState.compilePageToHtmlRun (svc : WordPressServiceState)
    (page : Page) (accentColor : String) : String × WordPressServiceState :=
  (compilePageToHtml page accentColor, svc)

/-- Invocation of the compilePageToGutenberg method on a service instance
(see compilePageToHtmlRun). -/
def WordPressServiceState.compilePageToGutenbergRun (svc : WordPressServiceState)
    (page : Page) (accentColor : String) : String × WordPressServiceState :=
  (compilePageToGutenberg page accentColor, svc)

/-- Per-section fuel cost of the traversal: one step for the section node
plus one per block. -/
def Section.cost (s : Section) : Nat := 1 + s.blocks.length

/-- Total fuel cost of a page traversal. -/
def Page.cost (p : Page) : Nat := (p.sections.map Section.cost).sum

/-- Fuel-indexed traversal of a section list: consumes one fuel unit per
section node and one per block, and gives up when the fuel runs out. -/
def sectionsFuel (f : Section → String → String) :
    Nat → List Section → String → Option (List String)
  | _, [], _ => some []
  | 0, _ :: _, _ => none
  | Nat.succ fuel, s :: rest, a =>
    if s.blocks.length ≤ fuel then
      match sectionsFuel f (fuel - s.blocks.length) rest a with
      | none => none
      | some tail => some (f s a :: tail)
    else none

/-- Fuel-indexed variant of compilePageToHtml. -/
def compilePageToHtmlFuel (fuel : Nat) (p : Page) (a : String) : Option String :=
  (sectionsFuel compileSectionToHtml fuel p.sections a).map (String.intercalate "\n")

/-- Fuel-indexed variant of compilePageToGutenberg. -/
def compilePageToGutenbergFuel (fuel : Nat) (p : Page) (a : String) : Option String :=
  (sectionsFuel compileSectionToGutenberg fuel p.sections a).map (String.intercalate "\n\n")

/-- A string whose first chunk is nonempty is nonempty. -/
theorem append_left_ne (a b : String) (ha : a ≠ "") : a ++ b ≠ "" := by
  intro he
  apply ha
  have hd : a.data ++ b.data = [] := congrArg String.data he
  exact String.ext (List.append_eq_nil.mp hd).1

/-- Characters of a single-character global replacement come from the
replacement string or are untouched characters of the input. -/
theorem mem_replaceChar {c pat : Char} {rep s : List Char}
    (h : c ∈ replaceChar pat rep s) : c ∈ rep ∨ (c ∈ s ∧ c ≠ pat) := by
  induction s with
  | nil => simp [replaceChar] at h
  | cons a rest ih =>
    rw [replaceChar] at h
    rcases List.mem_append.mp h with h1 | h2
    · by_cases hap : a = pat
      · rw [if_pos hap] at h1
        exact Or.inl h1
      · rw [if_neg hap] at h1
        rcases List.mem_singleton.mp h1 with rfl
        exact Or.inr ⟨List.mem_cons_self _ _, hap⟩
    · rcases ih h2 with h3 | ⟨hm, hne⟩
      · exact Or.inl h3
      · exact Or.inr ⟨List.mem_cons_of_mem _ hm, hne⟩

/-- A replacement pass eliminates its own pattern when the replacement
string avoids it. -/
theorem replaceChar_elim {pat : Char} {rep : List Char} (hrep : ∀ c ∈ rep, c ≠ pat)
    (s : List Char) : ∀ c ∈ replaceChar pat rep s, c ≠ pat := by
  intro c hc
  rcases mem_replaceChar hc with h | ⟨_, hne⟩
  · exact hrep c h
  · exact hne

/-- A replacement pass keeps a character absent when both the input and the
replacement string avoid it. -/
theorem replaceChar_preserve {x pat : Char} {rep : List Char} {s : List Char}
    (hrep : ∀ c ∈ rep, c ≠ x) (hs : ∀ c ∈ s, c ≠ x) :
    ∀ c ∈ replaceChar pat rep s, c ≠ x := by
  intro c hc
  rcases mem_replaceChar hc with h | ⟨hm, _⟩
  · exact hrep c h
  · exact hs c hm

/-- Output of escapeHtml never holds a raw angle bracket or quote. -/
theorem escapeHtml_no_specials (s : String) :
    ∀ c ∈ (escapeHtml s).data, c ≠ '<' ∧ c ≠ '>' ∧ c ≠ Char.ofNat 34 ∧ c ≠ Char.ofNat 39 := by
  intro c hc
  have hc5 : c ∈ replaceChar (Char.ofNat 39) "&#039;".data
      (replaceChar (Char.ofNat 34) "&quot;".data
        (replaceChar '>' "&gt;".data
          (replaceChar '<' "&lt;".data
            (replaceChar '&' "&amp;".data s.data)))) := hc
  refine ⟨?_, ?_, ?_, ?_⟩
  · exact replaceChar_preserve (by decide)
      (replaceChar_preserve (by decide)
        (replaceChar_preserve (by decide)
          (replaceChar_elim (by decide) _))) c hc5
  · exact replaceChar_preserve (by decide)
      (replaceChar_preserve (by decide)
        (replaceChar_elim (by decide) _)) c hc5
  · exact replaceChar_preserve (by decide)
      (replaceChar_elim (by decide) _) c hc5
  · exact replaceChar_elim (by decide) _ c hc5

/-- A fuel budget of at least the summed section costs lets the fueled
traversal finish, with the same markup as the direct map. -/
theorem sectionsFuel_sufficient (f : Section → String → String) (a : String) :
    ∀ (ss : List Section) (fuel : Nat), (ss.map Section.cost).sum ≤ fuel →
      sectionsFuel f fuel ss a = some (ss.map (fun s => f s a)) := by
  intro ss
  induction ss with
  | nil =>
    intro fuel _
    cases fuel <;> rfl
  | cons s rest ih =>
    intro fuel h
    rw [List.map_cons, List.sum_cons, Section.cost] at h
    cases fuel with
    | zero => omega
    | succ n =>
      have hb : s.blocks.length ≤ n := by omega
      have hr : (rest.map Section.cost).sum ≤ n - s.blocks.length := by omega
      rw [sectionsFuel, if_pos hb, ih (n - s.blocks.length) hr, List.map_cons]

/-- C1: the content-to-markup compiler is a tree-to-string transformation
that follows the page tree structurally: each page compiles to the joined
compilation of its sections (Gutenberg joined by a blank line, HTML by a
newline), and each section wraps its blocks' joined markup in a wp:group
comment pair, respectively a section element carrying its type and id. -/
theorem compile_follows_tree (p : Page) (s : Section) (c : String) :
    compilePageToGutenberg p c
      = String.intercalate "\n\n" (p.sections.map (fun sec => compileSectionToGutenberg sec c))
    ∧ compileSectionToGutenberg s c
      = "<!-- wp:group \x7b\"className\":\"section-" ++ s.type
          ++ "\"\x7d -->\n<div class=\"wp-block-group section-" ++ s.type ++ "\">"
          ++ String.intercalate "\n" (s.blocks.map (fun b => compileBlockToGutenberg b c))
          ++ "</div>\n<!-- /wp:group -->"
    ∧ compilePageToHtml p c
      = String.intercalate "\n" (p.sections.map (fun sec => compileSectionToHtml sec c))
    ∧ compileSectionToHtml s c
      = "<section class=\"wp-block-group section-" ++ s.type ++ "\" data-section-id=\""
          ++ s.id ++ "\">"
          ++ String.intercalate "\n" (s.blocks.map (fun b => compileBlockToHtml b c))
          ++ "</section>" :=
  ⟨rfl, rfl, rfl, rfl⟩

/-- C5: the compiler is stateless and deterministic: invoked on any two
service instances the page compilers return the same string for the same
page and accent color, and leave the instance unchanged. -/
theorem compiler_stateless (svc svc' : WordPressServiceState) (p : Page) (c : String) :
    (svc.compilePageToHtmlRun p c).1 = (svc'.compilePageToHtmlRun p c).1
    ∧ (svc.compilePageToHtmlRun p c).2 = svc
    ∧ (svc.compilePageToGutenbergRun p c).1 = (svc'.compilePageToGutenbergRun p c).1
    ∧ (svc.compilePageToGutenbergRun p c).2 = svc :=
  ⟨rfl, rfl, rfl, rfl⟩

/-- C2: the block variant set is closed: on a well-typed block both block
compilers produce markup exactly for the four known type tags, and both
return the empty string for any other tag. -/
theorem block_variants_closed (b : Block) (a : String) (hw : b.wellTyped) :
    ((b.type ≠ "text" ∧ b.type ≠ "image" ∧ b.type ≠ "button" ∧ b.type ≠ "list") →
      compileBlockToHtml b a = "" ∧ compileBlockToGutenberg b a = "")
    ∧ ((b.type = "text" ∨ b.type = "image" ∨ b.type = "button" ∨ b.type = "list") →
      compileBlockToHtml b a ≠ "" ∧ compileBlockToGutenberg b a ≠ "") := by
  obtain ⟨ht, hi, hb, hl⟩ := hw
  constructor
  · rintro ⟨h1, h2, h3, h4⟩
    constructor <;> simp [compileBlockToHtml, compileBlockToGutenberg, h1, h2, h3, h4]
  · rintro (h | h | h | h)
    · obtain ⟨p, hp⟩ := ht h
      constructor
      · simp only [compileBlockToHtml, h, hp, BlockProps.asText, if_pos]
        repeat apply append_left_ne
        decide
      · simp only [compileBlockToGutenberg, h, hp, BlockProps.asText, if_pos]
        split_ifs <;> (repeat apply append_left_ne) <;> decide
    · obtain ⟨p, hp⟩ := hi h
      have hne : b.type ≠ "text" := by rw [h]; decide
      constructor
      · simp only [compileBlockToHtml, h, hp, BlockProps.asImage, hne, if_pos, if_neg,
          if_false, reduceIte]
        repeat apply append_left_ne
        decide
      · simp only [compileBlockToGutenberg, h, hp, BlockProps.asImage, hne, if_pos, if_neg,
          if_false, reduceIte]
        repeat apply append_left_ne
        decide
    · obtain ⟨p, hp⟩ := hb h
      have hne : b.type ≠ "text" := by rw [h]; decide
      have hne2 : b.type ≠ "image" := by rw [h]; decide
      constructor
      · simp only [compileBlockToHtml, h, hp, BlockProps.asButton, hne, hne2, if_pos, if_neg,
          if_false, reduceIte]
        repeat apply append_left_ne
        decide
      · simp only [compileBlockToGutenberg, h, hp, BlockProps.asButton, hne, hne2, if_pos,
          if_neg, if_false, reduceIte]
        repeat apply append_left_ne
        decide
    · obtain ⟨p, hp⟩ := hl h
      have hne : b.type ≠ "text" := by rw [h]; decide
      have hne2 : b.type ≠ "image" := by rw [h]; decide
      have hne3 : b.type ≠ "button" := by rw [h]; decide
      constructor
      · simp only [compileBlockToHtml, h, hp, BlockProps.asList, hne, hne2, hne3, if_pos,
          if_neg, if_false, reduceIte]
        repeat apply append_left_ne
        decide
      · simp only [compileBlockToGutenberg, h, hp, BlockProps.asList, hne, hne2, hne3,
          if_pos, if_neg, if_false, reduceIte]
        repeat apply append_left_ne
        decide

/-- Witness for block_variants_closed at a concrete text block and a
concrete unknown tag. -/
theorem block_variants_closed_app :
    (compileBlockToHtml ⟨"b1", "text", BlockProps.text ⟨"Hi", "h1"⟩⟩ "#000000" ≠ ""
      ∧ compileBlockToGutenberg ⟨"b1", "text", BlockProps.text ⟨"Hi", "h1"⟩⟩ "#000000" ≠ "")
    ∧ (compileBlockToHtml ⟨"b2", "video", BlockProps.text ⟨"Hi", "h1"⟩⟩ "#000000" = ""
      ∧ compileBlockToGutenberg ⟨"b2", "video", BlockProps.text ⟨"Hi", "h1"⟩⟩ "#000000" = "") :=
  ⟨(block_variants_closed ⟨"b1", "text", BlockProps.text ⟨"Hi", "h1"⟩⟩ "#000000"
      ⟨fun _ => ⟨_, rfl⟩, fun h => absurd h (by decide), fun h => absurd h (by decide),
        fun h => absurd h (by decide)⟩).2 (Or.inl rfl),
   (block_variants_closed ⟨"b2", "video", BlockProps.text ⟨"Hi", "h1"⟩⟩ "#000000"
      ⟨fun h => absurd h (by decide), fun h => absurd h (by decide),
        fun h => absurd h (by decide), fun h => absurd h (by decide)⟩).1 (by decide)⟩

/-- C8: escapeHtml output never holds a raw angle bracket, double quote or
apostrophe (the ampersand being rewritten first), and the compilers pass
text content, image alt text, button labels and list item titles and
descriptions through escapeHtml before interpolation, while image src and
button href values are interpolated raw. -/
theorem escaping_discipline (s : String) :
    (∀ c ∈ (escapeHtml s).data, c ≠ '<' ∧ c ≠ '>' ∧ c ≠ Char.ofNat 34 ∧ c ≠ Char.ofNat 39)
    ∧ (∀ (i : String) (p : TextProps) (a : String),
        compileBlockToHtml ⟨i, "text", BlockProps.text p⟩ a
          = "<" ++ getTextTag p.variant ++ ">" ++ escapeHtml p.content
              ++ "</" ++ getTextTag p.variant ++ ">")
    ∧ (∀ (i : String) (p : ImageProps) (a : String),
        compileBlockToHtml ⟨i, "image", BlockProps.image p⟩ a
          = "<figure class=\"wp-block-image\"><img src=\"" ++ p.src
              ++ "\" alt=\"" ++ escapeHtml p.alt ++ "\" /></figure>")
    ∧ (∀ (i : String) (p : ButtonProps) (a : String),
        compileBlockToHtml ⟨i, "button", BlockProps.button p⟩ a
          = "<div class=\"wp-block-button\"><a class=\"wp-block-button__link\" href=\""
              ++ p.href ++ "\" style=\"background-color:"
              ++ (if p.variant = "primary" then a else "transparent")
              ++ ";color:" ++ (if p.variant = "primary" then "#ffffff" else a) ++ "\">"
              ++ escapeHtml p.text ++ "</a></div>")
    ∧ (∀ (i : String) (p : ListProps) (a : String),
        compileBlockToHtml ⟨i, "list", BlockProps.list p⟩ a
          = "<ul class=\"wp-block-list layout-" ++ p.layout ++ "\">"
              ++ String.join (p.items.map (fun item =>
                  "<li><strong>" ++ escapeHtml item.title ++ "</strong><p>"
                    ++ escapeHtml item.description ++ "</p></li>")) ++ "</ul>")
    ∧ (∀ (i : String) (p : ImageProps) (a : String),
        compileBlockToGutenberg ⟨i, "image", BlockProps.image p⟩ a
          = "<!-- wp:image -->\n<figure class=\"wp-block-image\"><img src=\"" ++ p.src
              ++ "\" alt=\"" ++ escapeHtml p.alt ++ "\"/></figure>\n<!-- /wp:image -->")
    ∧ (∀ (i : String) (p : ButtonProps) (a : String),
        compileBlockToGutenberg ⟨i, "button", BlockProps.button p⟩ a
          = "<!-- wp:buttons -->\n<div class=\"wp-block-buttons\"><!-- wp:button \x7b\"backgroundColor\":\""
              ++ (if p.variant = "primary" then a else "transparent")
              ++ "\"\x7d -->\n<div class=\"wp-block-button\"><a class=\"wp-block-button__link wp-element-button\" href=\""
              ++ p.href ++ "\">" ++ escapeHtml p.text
              ++ "</a></div>\n<!-- /wp:button --></div>\n<!-- /wp:buttons -->")
    ∧ (∀ (i : String) (p : ListProps) (a : String),
        compileBlockToGutenberg ⟨i, "list", BlockProps.list p⟩ a
          = "<!-- wp:list -->\n<ul class=\"wp-block-list\">"
              ++ String.join (p.items.map (fun item =>
                  "<li><strong>" ++ escapeHtml item.title ++ "</strong> - "
                    ++ escapeHtml item.description ++ "</li>")) ++ "</ul>\n<!-- /wp:list -->")
    ∧ (∀ (i : String) (p : TextProps) (a : String), ∃ pre post,
        compileBlockToGutenberg ⟨i, "text", BlockProps.text p⟩ a
          = pre ++ escapeHtml p.content ++ post) := by
  refine ⟨escapeHtml_no_specials s, fun i p a => rfl, fun i p a => rfl, fun i p a => rfl,
    fun i p a => rfl, fun i p a => rfl, fun i p a => rfl, fun i p a => rfl, fun i p a => ?_⟩
  by_cases h1 : p.variant = "h1"
  · exact ⟨"<!-- wp:heading \x7b\"level\":1\x7d -->\n<h1 class=\"wp-block-heading\">",
      "</h1>\n<!-- /wp:heading -->",
      by simp [compileBlockToGutenberg, BlockProps.asText, h1]⟩
  by_cases h2 : p.variant = "h2"
  · exact ⟨"<!-- wp:heading -->\n<h2 class=\"wp-block-heading\">",
      "</h2>\n<!-- /wp:heading -->",
      by simp [compileBlockToGutenberg, BlockProps.asText, h1, h2]⟩
  by_cases h3 : p.variant = "h3"
  · exact ⟨"<!-- wp:heading \x7b\"level\":3\x7d -->\n<h3 class=\"wp-block-heading\">",
      "</h3>\n<!-- /wp:heading -->",
      by simp [compileBlockToGutenberg, BlockProps.asText, h1, h2, h3]⟩
  by_cases h4 : p.variant = "small"
  · exact ⟨"<!-- wp:paragraph \x7b\"fontSize\":\"small\"\x7d -->\n<p class=\"has-small-font-size\">",
      "</p>\n<!-- /wp:paragraph -->",
      by simp [compileBlockToGutenberg, BlockProps.asText, h1, h2, h3, h4]⟩
  · exact ⟨"<!-- wp:paragraph -->\n<p>", "</p>\n<!-- /wp:paragraph -->",
      by simp [compileBlockToGutenberg, BlockProps.asText, h1, h2, h3, h4]⟩

/-- Witness for escaping_discipline: a character of an escaped string is
none of the four dangerous characters. -/
theorem escaping_discipline_app :
    'a' ∈ (escapeHtml "a<b").data
    ∧ 'a' ≠ '<' ∧ 'a' ≠ '>' ∧ 'a' ≠ Char.ofNat 34 ∧ 'a' ≠ Char.ofNat 39 :=
  ⟨by decide, (escaping_discipline "a<b").1 'a' (by decide)⟩

/-- C7: the page schema is a non-recursive fixed-depth tree, so both page
compilers terminate on every input: the fueled traversal already finishes
within a fuel budget of one step per tree node, returning exactly the
direct compilation. -/
theorem compiler_terminates_in_fuel (p : Page) (a : String) (fuel : Nat)
    (h : p.cost ≤ fuel) :
    compilePageToHtmlFuel fuel p a = some (compilePageToHtml p a)
    ∧ compilePageToGutenbergFuel fuel p a = some (compilePageToGutenberg p a) := by
  unfold compilePageToHtmlFuel compilePageToGutenbergFuel compilePageToHtml compilePageToGutenberg
  rw [sectionsFuel_sufficient compileSectionToHtml a p.sections fuel h,
    sectionsFuel_sufficient compileSectionToGutenberg a p.sections fuel h]
  exact ⟨rfl, rfl⟩

/-- Witness for compiler_terminates_in_fuel on a one-section, one-block
page with a two-step budget. -/
theorem compiler_terminates_in_fuel_app :
    Page.cost ⟨"Home", "home", [⟨"s1", "hero", 1, [⟨"b1", "text", BlockProps.text ⟨"Hi", "h1"⟩⟩]⟩]⟩ ≤ 2
    ∧ compilePageToHtmlFuel 2
        ⟨"Home", "home", [⟨"s1", "hero", 1, [⟨"b1", "text", BlockProps.text ⟨"Hi", "h1"⟩⟩]⟩]⟩ "x"
      = some (compilePageToHtml
        ⟨"Home", "home", [⟨"s1", "hero", 1, [⟨"b1", "text", BlockProps.text ⟨"Hi", "h1"⟩⟩]⟩]⟩ "x") :=
  ⟨by decide,
   (compiler_terminates_in_fuel
      ⟨"Home", "home", [⟨"s1", "hero", 1, [⟨"b1", "text", BlockProps.text ⟨"Hi", "h1"⟩⟩]⟩]⟩
      "x" 2 (by decide)).1⟩

/-- ASCII model of the JS String.prototype.toLowerCase call. -/
def jsToLower (s : String) : String := String.mk (s.data.map Char.toLower)

/-- Shape of the JSON object the home-page prompt asks the model for, the
data buildHomePage consumes. -/
structure ServiceEntry where
  title : String
  description : String
deriving DecidableEq

/-- A testimonial entry of the home-page JSON reply. -/
structure TestimonialEntry where
  name : String
  quote : String
deriving DecidableEq

/-- The parsed home-page JSON reply consumed by buildHomePage. -/
structure HomePageData where
  heroHeadline : String
  heroSubheadline : String
  aboutTitle : String
  aboutText : String
  services : List ServiceEntry
  testimonials : List TestimonialEntry
deriving DecidableEq

/-- Environment of AiService: whether the OpenAI client was built in the
constructor (the API key was set and nonempty), the outcome of the single
chat-completion call generateHomePage awaits (error means the promise
rejected), the behaviour of JSON.parse plus field extraction on the reply,
the stream of ids that successive Math.random based generateId calls
return, and the current year read from the Date clock. -/
structure AiEnv where
  hasClient : Bool
  homeApiResult : Except String String
  parseHome : String → Option HomePageData
  idSupply : Nat → String
  year : Int

/-- generateId of the shared helpers, drawing the next id of the stream. -/
def freshId (env : AiEnv) : StateM Nat String :=
  fun k => (env.idSupply k, k + 1)

/-- Run of a state computation through a bind, stated for rewriting. -/
theorem stRun_bind {α β : Type} (x : StateM Nat α) (f : α → StateM Nat β) (k : Nat) :
    (x >>= f).run k = (f (x.run k).1).run (x.run k).2 := rfl

/-- Run of a pure state computation, stated for rewriting. -/
theorem stRun_pure {α : Type} (a : α) (k : Nat) :
    (pure a : StateM Nat α).run k = (a, k) := rfl

/-- Run of freshId, stated for rewriting. -/
theorem freshId_run (env : AiEnv) (k : Nat) :
    (freshId env).run k = (env.idSupply k, k + 1) := rfl

/-- The JS array map building list items with fresh ids, in element
order: items.map of an object literal whose id field calls generateId. -/
def mapWithIds {α : Type} (env : AiEnv) (f : String → α → ListItem) :
    List α → StateM Nat (List ListItem)
  | [] => pure []
  | x :: rest => do
    let iid ← freshId env
    let tail ← mapWithIds env f rest
    pure (f iid x :: tail)

/-- buildHomePage of AiService: assembles the hero, about, services,
testimonials, contact and footer sections from the parsed data, drawing ids
in the order the object literals evaluate. -/
def buildHomePage (env : AiEnv) (settings : SiteSettings) (data : HomePageData) :
    StateM Nat Page := do
  let ctaText := if settings.primaryCta = "call" then "Call Us Today"
    else if settings.primaryCta = "book" then "Book Now" else "Get a Quote"
  let heroId ← freshId env
  let heroHeadlineId ← freshId env
  let heroSubId ← freshId env
  let heroBtnId ← freshId env
  let heroImgId ← freshId env
  let aboutId ← freshId env
  let aboutTitleId ← freshId env
  let aboutTextId ← freshId env
  let aboutImgId ← freshId env
  let servicesId ← freshId env
  let servicesTitleId ← freshId env
  let servicesListId ← freshId env
  let serviceItems ← mapWithIds env
    (fun iid s => ⟨iid, s.title, s.description, none⟩) data.services
  let testimonialsId ← freshId env
  let testimonialsTitleId ← freshId env
  let testimonialsListId ← freshId env
  let testimonialItems ← mapWithIds env
    (fun iid t => ⟨iid, t.name, t.quote, none⟩) data.testimonials
  let contactId ← freshId env
  let contactTitleId ← freshId env
  let contactEmailId ← freshId env
  let contactPhoneId ← freshId env
  let contactBtnId ← freshId env
  let footerId ← freshId env
  let footerTextId ← freshId env
  pure
    { title := "Home"
      slug := "home"
      sections :=
        [ { id := heroId, type := "hero", variant := 1
            blocks :=
              [ ⟨heroHeadlineId, "text", BlockProps.text ⟨data.heroHeadline, "h1"⟩⟩
              , ⟨heroSubId, "text", BlockProps.text ⟨data.heroSubheadline, "body"⟩⟩
              , ⟨heroBtnId, "button", BlockProps.button ⟨ctaText, "#contact", "primary"⟩⟩
              , ⟨heroImgId, "image", BlockProps.image ⟨"/placeholder-hero.jpg", "Hero image"⟩⟩ ] }
        , { id := aboutId, type := "about", variant := 1
            blocks :=
              [ ⟨aboutTitleId, "text", BlockProps.text ⟨data.aboutTitle, "h2"⟩⟩
              , ⟨aboutTextId, "text", BlockProps.text ⟨data.aboutText, "body"⟩⟩
              , ⟨aboutImgId, "image", BlockProps.image ⟨"/placeholder-about.jpg", "About us"⟩⟩ ] }
        , { id := servicesId, type := "services", variant := 1
            blocks :=
              [ ⟨servicesTitleId, "text", BlockProps.text ⟨"Our Services", "h2"⟩⟩
              , ⟨servicesListId, "list", BlockProps.list ⟨serviceItems, "grid"⟩⟩ ] }
        , { id := testimonialsId, type := "testimonials", variant := 1
            blocks :=
              [ ⟨testimonialsTitleId, "text", BlockProps.text ⟨"What Our Clients Say", "h2"⟩⟩
              , ⟨testimonialsListId, "list", BlockProps.list ⟨testimonialItems, "list"⟩⟩ ] }
        , { id := contactId, type := "contact", variant := 1
            blocks :=
              [ ⟨contactTitleId, "text", BlockProps.text ⟨"Get In Touch", "h2"⟩⟩
              , ⟨contactEmailId, "text",
                  BlockProps.text ⟨"Email: " ++ settings.contactEmail, "body"⟩⟩
              , ⟨contactPhoneId, "text",
                  BlockProps.text ⟨"Phone: " ++ settings.contactPhone, "body"⟩⟩
              , ⟨contactBtnId, "button",
                  BlockProps.button ⟨ctaText, "tel:" ++ settings.contactPhone, "primary"⟩⟩ ] }
        , { id := footerId, type := "footer", variant := 1
            blocks :=
              [ ⟨footerTextId, "text",
                  BlockProps.text ⟨"© " ++ toString env.year ++ " " ++ settings.businessName
                    ++ ". All rights reserved.", "small"⟩⟩ ] } ] }

/-- createFallbackHomePage of AiService: buildHomePage on the hardcoded
copy derived from the settings. -/
def createFallbackHomePage (env : AiEnv) (settings : SiteSettings) : StateM Nat Page :=
  buildHomePage env settings
    { heroHeadline := "Welcome to " ++ settings.businessName
      heroSubheadline := "Your trusted partner in " ++ jsToLower settings.industry
        ++ ". We deliver excellence with every interaction."
      aboutTitle := "About Us"
      aboutText := settings.businessName
        ++ " has been proudly serving our community with top-quality "
        ++ jsToLower settings.industry
        ++ " services. Our dedicated team brings years of experience and a commitment to excellence that sets us apart."
      services :=
        [ ⟨"Professional Service", "Expert solutions tailored to your needs"⟩
        , ⟨"Quality Guaranteed", "We stand behind our work with confidence"⟩
        , ⟨"Fast Turnaround", "Quick and efficient service delivery"⟩ ]
      testimonials :=
        [ ⟨"John D.", "Exceptional service! They exceeded all my expectations."⟩
        , ⟨"Sarah M.", "Professional, reliable, and truly caring. Highly recommended!"⟩ ] }

/-- generateContactPage of AiService: a fixed contact page plus footer,
never calling the API. -/
def generateContactPage (env : AiEnv) (settings : SiteSettings) : StateM Nat Page := do
  let contactId ← freshId env
  let titleId ← freshId env
  let blurbId ← freshId env
  let emailId ← freshId env
  let phoneId ← freshId env
  let btnId ← freshId env
  let footerId ← freshId env
  let footerTextId ← freshId env
  pure
    { title := "Contact"
      slug := "contact"
      sections :=
        [ { id := contactId, type := "contact", variant := 1
            blocks :=
              [ ⟨titleId, "text", BlockProps.text ⟨"Contact Us", "h1"⟩⟩
              , ⟨blurbId, "text",
                  BlockProps.text ⟨"We\x27d love to hear from you. Reach out to "
                    ++ settings.businessName ++ " today.", "body"⟩⟩
              , ⟨emailId, "text",
                  BlockProps.text ⟨"Email: " ++ settings.contactEmail, "body"⟩⟩
              , ⟨phoneId, "text",
                  BlockProps.text ⟨"Phone: " ++ settings.contactPhone, "body"⟩⟩
              , ⟨btnId, "button",
                  BlockProps.button ⟨(if settings.primaryCta = "call" then "Call Now"
                      else if settings.primaryCta = "book" then "Book Appointment"
                      else "Request Quote"),
                    "tel:" ++ settings.contactPhone, "primary"⟩⟩ ] }
        , { id := footerId, type := "footer", variant := 1
            blocks :=
              [ ⟨footerTextId, "text",
                  BlockProps.text ⟨"© " ++ toString env.year ++ " " ++ settings.businessName
                    ++ ". All rights reserved.", "small"⟩⟩ ] } ] }

/-- generateFallbackContent of AiService: the fallback home page followed
by a contact page whose construction the source repeats inline. -/
def generateFallbackContent (env : AiEnv) (settings : SiteSettings) : StateM Nat SiteContent := do
  let homePage ← createFallbackHomePage env settings
  let contactId ← freshId env
  let titleId ← freshId env
  let blurbId ← freshId env
  let emailId ← freshId env
  let phoneId ← freshId env
  let btnId ← freshId env
  let footerId ← freshId env
  let footerTextId ← freshId env
  let contactPage : Page :=
    { title := "Contact"
      slug := "contact"
      sections :=
        [ { id := contactId, type := "contact", variant := 1
            blocks :=
              [ ⟨titleId, "text", BlockProps.text ⟨"Contact Us", "h1"⟩⟩
              , ⟨blurbId, "text",
                  BlockProps.text ⟨"We\x27d love to hear from you. Reach out to "
                    ++ settings.businessName ++ " today.", "body"⟩⟩
              , ⟨emailId, "text",
                  BlockProps.text ⟨"Email: " ++ settings.contactEmail, "body"⟩⟩
              , ⟨phoneId, "text",
                  BlockProps.text ⟨"Phone: " ++ settings.contactPhone, "body"⟩⟩
              , ⟨btnId, "button",
                  BlockProps.button ⟨(if settings.primaryCta = "call" then "Call Now"
                      else if settings.primaryCta = "book" then "Book Appointment"
                      else "Request Quote"),
                    "tel:" ++ settings.contactPhone, "primary"⟩⟩ ] }
        , { id := footerId, type := "footer", variant := 1
            blocks :=
              [ ⟨footerTextId, "text",
                  BlockProps.text ⟨"© " ++ toString env.year ++ " " ++ settings.businessName
                    ++ ". All rights reserved.", "small"⟩⟩ ] } ] }
  pure { pages := [homePage, contactPage], settings := settings }

/-- generateHomePage of AiService: awaits the chat-completion call (whose
rejection propagates), parses the reply as JSON (a parse failure is caught
locally and yields the fallback home page), then builds the page. -/
def generateHomePage (env : AiEnv) (settings : SiteSettings) :
    StateM Nat (Except String Page) :=
  match env.homeApiResult with
  | .error e => pure (Except.error e)
  | .ok content =>
    match env.parseHome content with
    | none => do
      let p ← createFallbackHomePage env settings
      pure (Except.ok p)
    | some data => do
      let p ← buildHomePage env settings data
      pure (Except.ok p)

/-- generateSiteContent of AiService: without a client it returns the
fallback at once; otherwise it tries the AI path and catches any error by
returning the fallback. -/
def generateSiteContent (env : AiEnv) (settings : SiteSettings) : StateM Nat SiteContent := do
  if env.hasClient = false then
    generateFallbackContent env settings
  else
    let r ← generateHomePage env settings
    match r with
    | .error _ => generateFallbackContent env settings
    | .ok homePage => do
      let contactPage ← generateContactPage env settings
      pure { pages := [homePage, contactPage], settings := settings }

/-- The home page built from any data carries slug home. -/
theorem buildHomePage_slug (env : AiEnv) (settings : SiteSettings) (data : HomePageData)
    (k : Nat) : ((buildHomePage env settings data).run k).1.slug = "home" := by
  simp [buildHomePage, stRun_bind, stRun_pure]

/-- The home page built from any data carries title Home. -/
theorem buildHomePage_title (env : AiEnv) (settings : SiteSettings) (data : HomePageData)
    (k : Nat) : ((buildHomePage env settings data).run k).1.title = "Home" := by
  simp [buildHomePage, stRun_bind, stRun_pure]

/-- The generated contact page carries slug contact. -/
theorem generateContactPage_slug (env : AiEnv) (settings : SiteSettings) (k : Nat) :
    ((generateContactPage env settings).run k).1.slug = "contact" := by
  simp [generateContactPage, stRun_bind, stRun_pure]

/-- The generated contact page carries title Contact. -/
theorem generateContactPage_title (env : AiEnv) (settings : SiteSettings) (k : Nat) :
    ((generateContactPage env settings).run k).1.title = "Contact" := by
  simp [generateContactPage, stRun_bind, stRun_pure]

/-- The fallback content echoes the settings and is a home page followed by
a contact page. -/
theorem generateFallbackContent_parts (env : AiEnv) (settings : SiteSettings) (k : Nat) :
    ((generateFallbackContent env settings).run k).1.settings = settings
    ∧ ((generateFallbackContent env settings).run k).1.pages.map Page.slug
        = ["home", "contact"]
    ∧ ((generateFallbackContent env settings).run k).1.pages.map Page.title
        = ["Home", "Contact"] := by
  refine ⟨?_, ?_, ?_⟩ <;>
    simp [generateFallbackContent, createFallbackHomePage, stRun_bind, stRun_pure,
      buildHomePage_slug, buildHomePage_title]

/-- C3: AiService.generateSiteContent never propagates an error and always
falls back to static content: with the client absent, with the
chat-completion call rejecting, or with its reply failing to parse, the run
equals the static fallback run built from the settings; and in every case
the result echoes the input settings and its pages are exactly a home page
(slug home) followed by a contact page (slug contact). -/
theorem generateSiteContent_falls_back (env : AiEnv) (settings : SiteSettings) (k : Nat) :
    (env.hasClient = false →
      (generateSiteContent env settings).run k = (generateFallbackContent env settings).run k)
    ∧ (∀ e, env.homeApiResult = Except.error e →
      (generateSiteContent env settings).run k = (generateFallbackContent env settings).run k)
    ∧ (∀ content, env.homeApiResult = Except.ok content → env.parseHome content = none →
      (generateSiteContent env settings).run k = (generateFallbackContent env settings).run k)
    ∧ ((generateSiteContent env settings).run k).1.settings = settings
    ∧ ((generateSiteContent env settings).run k).1.pages.map Page.slug = ["home", "contact"]
    ∧ ((generateSiteContent env settings).run k).1.pages.map Page.title = ["Home", "Contact"] := by
  rcases hra : env.homeApiResult with e | content
  · have hrun : (generateSiteContent env settings).run k
        = (generateFallbackContent env settings).run k := by
      by_cases hc : env.hasClient = false <;>
        simp [generateSiteContent, generateHomePage, hra, hc, stRun_bind, stRun_pure]
    refine ⟨fun _ => hrun, fun _ _ => hrun,
      fun ct hct _ => absurd hct (by simp), ?_, ?_, ?_⟩
    · rw [hrun]; exact (generateFallbackContent_parts env settings k).1
    · rw [hrun]; exact (generateFallbackContent_parts env settings k).2.1
    · rw [hrun]; exact (generateFallbackContent_parts env settings k).2.2
  · by_cases hc : env.hasClient = false
    · have hrun : (generateSiteContent env settings).run k
          = (generateFallbackContent env settings).run k := by
        simp [generateSiteContent, hc]
      refine ⟨fun _ => hrun,
        fun e he => absurd he (by simp),
        fun _ _ _ => hrun, ?_, ?_, ?_⟩
      · rw [hrun]; exact (generateFallbackContent_parts env settings k).1
      · rw [hrun]; exact (generateFallbackContent_parts env settings k).2.1
      · rw [hrun]; exact (generateFallbackContent_parts env settings k).2.2
    · cases hp : env.parseHome content with
      | none =>
        have hrun : (generateSiteContent env settings).run k
            = (generateFallbackContent env settings).run k := by
          simp [generateSiteContent, generateHomePage, hra, hp, hc, stRun_bind, stRun_pure,
            generateFallbackContent, generateContactPage]
        refine ⟨fun h => absurd h hc,
          fun e he => absurd he (by simp),
          fun _ _ _ => hrun, ?_, ?_, ?_⟩
        · rw [hrun]; exact (generateFallbackContent_parts env settings k).1
        · rw [hrun]; exact (generateFallbackContent_parts env settings k).2.1
        · rw [hrun]; exact (generateFallbackContent_parts env settings k).2.2
      | some data =>
        refine ⟨fun h => absurd h hc,
          fun e he => absurd he (by simp),
          fun ct hct hpp => ?_, ?_, ?_, ?_⟩
        · have hceq : content = ct := by simpa using hct
          rw [← hceq, hp] at hpp
          exact absurd hpp (by simp)
        · simp [generateSiteContent, generateHomePage, hra, hp, hc, stRun_bind, stRun_pure]
        · simp [generateSiteContent, generateHomePage, hra, hp, hc, stRun_bind, stRun_pure,
            buildHomePage_slug, generateContactPage_slug]
        · simp [generateSiteContent, generateHomePage, hra, hp, hc, stRun_bind, stRun_pure,
            buildHomePage_title, generateContactPage_title]

/-- Witness for generateSiteContent_falls_back at a concrete environment
whose chat-completion call rejects. -/
theorem generateSiteContent_falls_back_app :
    (AiEnv.mk true (Except.error "boom") (fun _ => none) (fun _ => "id") 2025).homeApiResult
      = Except.error "boom"
    ∧ (generateSiteContent
        (AiEnv.mk true (Except.error "boom") (fun _ => none) (fun _ => "id") 2025)
        ⟨"Acme", "Plumbing", "modern", "#DB2777", "call", "a@b.c", "555"⟩).run 0
      = (generateFallbackContent
        (AiEnv.mk true (Except.error "boom") (fun _ => none) (fun _ => "id") 2025)
        ⟨"Acme", "Plumbing", "modern", "#DB2777", "call", "a@b.c", "555"⟩).run 0 :=
  ⟨rfl,
   (generateSiteContent_falls_back
      (AiEnv.mk true (Except.error "boom") (fun _ => none) (fun _ => "id") 2025)
      ⟨"Acme", "Plumbing", "modern", "#DB2777", "call", "a@b.c", "555"⟩ 0).2.1
      "boom" rfl⟩

/-- JobStatus of the Prisma schema. -/
inductive JobStatus where
  | pending
  | running
  | completed
  | failed
deriving DecidableEq

/-- Outcome of one of the four job handlers: it either resolves or rejects
with an error message.  C4 is about the dispatch and life-cycle only, so
the handlers' own effects are abstracted into their outcome. -/
inductive HandlerOutcome where
  | ok
  | throws (msg : String)
deriving DecidableEq

/-- The handler outcomes available to one processJob invocation. -/
structure JobsProcessorEnv where
  provision : HandlerOutcome
  generate : HandlerOutcome
  publish : HandlerOutcome
  rollback : HandlerOutcome
deriving DecidableEq

/-- Modelled from the spec: JobsService.updateJobStatus is not among the
sources (only its callers in JobsProcessor are); per the job life-cycle the
spec describes it records a new status, and optionally an error message, on
the job row.  The model records the sequence of such updates. -/
structure StatusUpdate where
  status : JobStatus
  error : Option String
deriving DecidableEq

/-- An awaited handler call as an Except value. -/
def HandlerOutcome.toExcept : HandlerOutcome → Except String Unit
  | .ok => Except.ok ()
  | .throws m => Except.error m

/-- The switch of JobsProcessor.processJob over the job type, including the
default branch throwing the unknown-job-type error. -/
def dispatch (env : JobsProcessorEnv) (type : String) : Except String Unit :=
  if type = "provision" then env.provision.toExcept
  else if type = "generate" then env.generate.toExcept
  else if type = "publish" then env.publish.toExcept
  else if type = "rollback" then env.rollback.toExcept
  else Except.error ("Unknown job type: " ++ type)

/-- processJob of JobsProcessor: marks the job running, dispatches on the
type, then marks it completed, or failed with the error message recorded,
rethrowing the error to the queue library.  The first component is the
sequence of job status updates, the second the value the promise settles
with. -/
def processJob (env : JobsProcessorEnv) (type : String) :
    List StatusUpdate × Except String Unit :=
  let start := [StatusUpdate.mk JobStatus.running none]
  match dispatch env type with
  | Except.ok _ => (start ++ [StatusUpdate.mk JobStatus.completed none], Except.ok ())
  | Except.error e =>
    let errorMessage := e
    (start ++ [StatusUpdate.mk JobStatus.failed (some errorMessage)], Except.error e)

/-- C4: processJob is a pure switch dispatcher with a fixed life-cycle: the
first status update is always running; the switch covers exactly the four
known type strings and any other type throws the unknown-job-type error;
a normally returning handler yields a final completed status and a settled
promise, and a throwing handler (or the unknown-type throw) yields a final
failed status carrying the error message, which is rethrown. -/
theorem processJob_lifecycle (env : JobsProcessorEnv) (t : String) :
    ((processJob env t).1.head? = some (StatusUpdate.mk JobStatus.running none))
    ∧ (t = "provision" → dispatch env t = env.provision.toExcept)
    ∧ (t = "generate" → dispatch env t = env.generate.toExcept)
    ∧ (t = "publish" → dispatch env t = env.publish.toExcept)
    ∧ (t = "rollback" → dispatch env t = env.rollback.toExcept)
    ∧ ((t ≠ "provision" ∧ t ≠ "generate" ∧ t ≠ "publish" ∧ t ≠ "rollback") →
        processJob env t
          = ([StatusUpdate.mk JobStatus.running none,
              StatusUpdate.mk JobStatus.failed (some ("Unknown job type: " ++ t))],
             Except.error ("Unknown job type: " ++ t)))
    ∧ (dispatch env t = Except.ok () →
        processJob env t
          = ([StatusUpdate.mk JobStatus.running none,
              StatusUpdate.mk JobStatus.completed none], Except.ok ()))
    ∧ (∀ m, dispatch env t = Except.error m →
        processJob env t
          = ([StatusUpdate.mk JobStatus.running none,
              StatusUpdate.mk JobStatus.failed (some m)], Except.error m)) := by
  refine ⟨?_, ?_, ?_, ?_, ?_, ?_, ?_, ?_⟩
  · cases hd : dispatch env t <;> simp [processJob, hd]
  · intro h
    simp [dispatch, h]
  · intro h
    simp [dispatch, h]
  · intro h
    simp [dispatch, h]
  · intro h
    simp [dispatch, h]
  · rintro ⟨h1, h2, h3, h4⟩
    simp [processJob, dispatch, h1, h2, h3, h4]
  · intro hd
    simp [processJob, hd]
  · intro m hd
    simp [processJob, hd]

/-- Witness for processJob_lifecycle: an unknown type fails with the
unknown-job-type message, a known type with resolving handler completes. -/
theorem processJob_lifecycle_app :
    processJob (JobsProcessorEnv.mk HandlerOutcome.ok HandlerOutcome.ok
        HandlerOutcome.ok HandlerOutcome.ok) "migrate"
      = ([StatusUpdate.mk JobStatus.running none,
          StatusUpdate.mk JobStatus.failed (some "Unknown job type: migrate")],
         Except.error "Unknown job type: migrate")
    ∧ processJob (JobsProcessorEnv.mk HandlerOutcome.ok HandlerOutcome.ok
        HandlerOutcome.ok HandlerOutcome.ok) "generate"
      = ([StatusUpdate.mk JobStatus.running none,
          StatusUpdate.mk JobStatus.completed none], Except.ok ()) :=
  ⟨by
    have h := (processJob_lifecycle (JobsProcessorEnv.mk HandlerOutcome.ok HandlerOutcome.ok
        HandlerOutcome.ok HandlerOutcome.ok) "migrate").2.2.2.2.2.1
      ⟨by decide, by decide, by decide, by decide⟩
    simpa using h,
   by
    have h := (processJob_lifecycle (JobsProcessorEnv.mk HandlerOutcome.ok HandlerOutcome.ok
        HandlerOutcome.ok HandlerOutcome.ok) "generate").2.2.2.2.2.2.1 rfl
    simpa using h⟩

/-- A character the slug regex keeps: the class a-z0-9 (after lowering). -/
def isSlugChar (c : Char) : Bool :=
  ('a' ≤ c && c ≤ 'z') || c.isDigit

/-- Collapse of adjacent dashes: together with the character map below this
models the global replacement of every run matching the character class
complement by a single dash. -/
def squeezeDashes : List Char → List Char
  | [] => []
  | [c] => [c]
  | a :: b :: rest =>
    if a = '-' && b = '-' then squeezeDashes (b :: rest)
    else a :: squeezeDashes (b :: rest)

/-- Drop of one leading dash, half of the global replacement of the
anchored leading-or-trailing-dash alternation by the empty string. -/
def dropOneLeadingDash : List Char → List Char
  | '-' :: rest => rest
  | l => l

/-- The slug computation at the top of provisionSite: lowercase the site
name, replace every run outside a-z0-9 by one dash, strip one leading and
one trailing dash, and keep at most 50 characters. -/
def slugify (name : String) : String :=
  let lowered := (jsToLower name).data
  let dashed := squeezeDashes (lowered.map (fun c => if isSlugChar c then c else '-'))
  String.mk ((dropOneLeadingDash (dropOneLeadingDash dashed.reverse).reverse).take 50)

/-- JS parseInt with radix 10: skip leading whitespace, take an optional
sign and the longest digit prefix, and return NaN (none) when no digit
follows. -/
def parseIntJs (s : String) : Option Int :=
  let l := s.data.dropWhile Char.isWhitespace
  let signed : Int × List Char :=
    match l with
    | '-' :: r => (-1, r)
    | '+' :: r => (1, r)
    | _ => (1, l)
  let digits := signed.2.takeWhile Char.isDigit
  if digits.isEmpty then none
  else some (signed.1 * Int.ofNat (digits.foldl (fun n c => n * 10 + (c.toNat - 48)) 0))

/-- The Site join the provision handler passes in: the row with its owner
email and tenant slug included. -/
structure WpSite where
  id : String
  name : String
  ownerEmail : String
  tenantSlug : String
deriving DecidableEq

/-- Environment of one provisionSite call: the NODE_ENV configuration
value, the configured multisite URL field, the settlement of the WP-CLI
site create command (error means the exec call rejected), and the value
Math.floor of Math.random times 10000 yields in the dev branch. -/
structure ProvisionEnv where
  nodeEnv : Option String
  wpMultisiteUrl : String
  createResult : Except String String
  mockSiteId : Int

/-- ProvisionResult of WordPressService. -/
structure ProvisionResult where
  wpSiteId : Int
  wpAdminUrl : String
  wpSiteUrl : String
deriving DecidableEq

/-- provisionSite of WordPressService: build the slug and URLs, run the
site create command and parse its output as the new site id; on any error
return a simulated result when NODE_ENV is development, otherwise rethrow. -/
def provisionSite (env : ProvisionEnv) (site : WpSite) : Except String ProvisionResult :=
  let slug := slugify site.name
  let siteSlug := slug ++ "-" ++ site.id.take 8
  let siteUrl := env.wpMultisiteUrl ++ "/" ++ siteSlug
  let attempt : Except String ProvisionResult :=
    match env.createResult with
    | Except.error e => Except.error e
    | Except.ok createOutput =>
      match parseIntJs createOutput with
      | none => Except.error ("Failed to parse site ID from output: " ++ createOutput)
      | some wpSiteId =>
        Except.ok (ProvisionResult.mk wpSiteId (siteUrl ++ "/wp-admin") siteUrl)
  match attempt with
  | Except.ok r => Except.ok r
  | Except.error e =>
    if env.nodeEnv = some "development" then
      Except.ok (ProvisionResult.mk env.mockSiteId
        (env.wpMultisiteUrl ++ "/" ++ siteSlug ++ "/wp-admin")
        (env.wpMultisiteUrl ++ "/" ++ siteSlug))
    else Except.error e

/-- C6: when the site create command fails, or its output does not parse as
an integer site id, provisionSite rethrows the error unless NODE_ENV is
development, in which case it returns the simulated result built from the
multisite URL and the slug derived from the name and the first 8 id
characters. -/
theorem provisionSite_dev_fallback (env : ProvisionEnv) (site : WpSite) :
    (∀ e, env.createResult = Except.error e →
      (env.nodeEnv = some "development" →
        provisionSite env site
          = Except.ok (ProvisionResult.mk env.mockSiteId
              (env.wpMultisiteUrl ++ "/" ++ (slugify site.name ++ "-" ++ site.id.take 8)
                ++ "/wp-admin")
              (env.wpMultisiteUrl ++ "/" ++ (slugify site.name ++ "-" ++ site.id.take 8))))
      ∧ (env.nodeEnv ≠ some "development" → provisionSite env site = Except.error e))
    ∧ (∀ out, env.createResult = Except.ok out → parseIntJs out = none →
      (env.nodeEnv = some "development" →
        provisionSite env site
          = Except.ok (ProvisionResult.mk env.mockSiteId
              (env.wpMultisiteUrl ++ "/" ++ (slugify site.name ++ "-" ++ site.id.take 8)
                ++ "/wp-admin")
              (env.wpMultisiteUrl ++ "/" ++ (slugify site.name ++ "-" ++ site.id.take 8))))
      ∧ (env.nodeEnv ≠ some "development" →
        provisionSite env site
          = Except.error ("Failed to parse site ID from output: " ++ out))) := by
  constructor
  · intro e he
    constructor
    · intro hdev
      simp [provisionSite, he, hdev]
    · intro hdev
      simp [provisionSite, he, hdev]
  · intro out hout hparse
    constructor
    · intro hdev
      simp [provisionSite, hout, hparse, hdev]
    · intro hdev
      simp [provisionSite, hout, hparse, hdev]

/-- Witness for provisionSite_dev_fallback: a failing create command in
development mode yields the simulated result. -/
theorem provisionSite_dev_fallback_app :
    (ProvisionEnv.mk (some "development") "http://localhost:8080"
        (Except.error "wp not found") 42).createResult = Except.error "wp not found"
    ∧ provisionSite
        (ProvisionEnv.mk (some "development") "http://localhost:8080"
          (Except.error "wp not found") 42)
        (WpSite.mk "abcdef1234" "My Shop!" "o@e.c" "t1")
      = Except.ok (ProvisionResult.mk 42
          "http://localhost:8080/my-shop-abcdef12/wp-admin"
          "http://localhost:8080/my-shop-abcdef12") := by
  constructor
  · rfl
  · have h := ((provisionSite_dev_fallback
      (ProvisionEnv.mk (some "development") "http://localhost:8080"
        (Except.error "wp not found") 42)
      (WpSite.mk "abcdef1234" "My Shop!" "o@e.c" "t1")).1 "wp not found" rfl).1 rfl
    simpa using h

/-- SubscriptionStatus of the Prisma schema. -/
inductive SubscriptionStatus where
  | active
  | canceled
  | past_due
  | trialing
  | incomplete
deriving DecidableEq

/-- A StripeSubscription row restricted to the columns the
hasActiveSubscription query filters on. -/
structure StripeSubscriptionRow where
  userId : String
  status : SubscriptionStatus
deriving DecidableEq

/-- The constructor of BillingService: the Stripe client exists exactly
when the STRIPE_SECRET_KEY configuration value is truthy (present and
nonempty, the JS falsiness test). -/
def stripeClientPresent (secretKey : Option String) : Bool :=
  match secretKey with
  | none => false
  | some s => !(s == "")

/-- The Prisma findFirst call of hasActiveSubscription: the first row of
the table matching the filter. -/
def findFirstSub (db : List StripeSubscriptionRow)
    (p : StripeSubscriptionRow → Bool) : Option StripeSubscriptionRow :=
  db.find? p

/-- hasActiveSubscription of BillingService: without a Stripe client every
user passes; otherwise the user passes exactly when a row with their id and
active status exists. -/
def hasActiveSubscription (stripeConfigured : Bool)
    (db : List StripeSubscriptionRow) (userId : String) : Bool :=
  if !stripeConfigured then true
  else
    (findFirstSub db (fun r =>
      decide (r.userId = userId ∧ r.status = SubscriptionStatus.active))).isSome

/-- C9: hasActiveSubscription returns true unconditionally for every user
when no Stripe secret key is configured; with Stripe configured it returns
true exactly when an active StripeSubscription row exists for the user. -/
theorem hasActiveSubscription_spec (secretKey : Option String)
    (db : List StripeSubscriptionRow) (userId : String) :
    (stripeClientPresent secretKey = false →
      hasActiveSubscription (stripeClientPresent secretKey) db userId = true)
    ∧ (stripeClientPresent secretKey = true →
      (hasActiveSubscription (stripeClientPresent secretKey) db userId = true
        ↔ ∃ r ∈ db, r.userId = userId ∧ r.status = SubscriptionStatus.active)) := by
  constructor
  · intro h
    simp [hasActiveSubscription, h]
  · intro h
    rw [hasActiveSubscription, h]
    simp only [Bool.not_true, if_false, Bool.false_eq_true, findFirstSub]
    rw [List.find?_isSome]
    constructor
    · rintro ⟨r, hr, hp⟩
      exact ⟨r, hr, of_decide_eq_true hp⟩
    · rintro ⟨r, hr, hp⟩
      exact ⟨r, hr, decide_eq_true hp⟩

/-- Witness for hasActiveSubscription_spec: without a key every user is
allowed; with a key a user with only a canceled row is refused while one
with an active row passes. -/
theorem hasActiveSubscription_spec_app :
    (stripeClientPresent none = false
      ∧ hasActiveSubscription (stripeClientPresent none) [] "u1" = true)
    ∧ (stripeClientPresent (some "sk_test") = true
      ∧ (hasActiveSubscription (stripeClientPresent (some "sk_test"))
          [StripeSubscriptionRow.mk "u1" SubscriptionStatus.canceled,
           StripeSubscriptionRow.mk "u2" SubscriptionStatus.active] "u2" = true
        ↔ ∃ r ∈ [StripeSubscriptionRow.mk "u1" SubscriptionStatus.canceled,
             StripeSubscriptionRow.mk "u2" SubscriptionStatus.active],
            r.userId = "u2" ∧ r.status = SubscriptionStatus.active)) :=
  ⟨⟨rfl, (hasActiveSubscription_spec none [] "u1").1 rfl⟩,
   ⟨rfl, (hasActiveSubscription_spec (some "sk_test")
      [StripeSubscriptionRow.mk "u1" SubscriptionStatus.canceled,
       StripeSubscriptionRow.mk "u2" SubscriptionStatus.active] "u2").2 rfl⟩⟩

/-- SiteStatus of the Prisma schema. -/
inductive SiteStatus where
  | provisioning
  | generating
  | draft
  | published
  | error
deriving DecidableEq

/-- A Site row restricted to the columns the generate handler touches. -/
structure SiteRow where
  id : String
  status : SiteStatus
  currentVersionId : Option String
deriving DecidableEq

/-- A SiteVersion row. -/
structure SiteVersionRow where
  id : String
  siteId : String
  versionNumber : Int
  pageJson : SiteContent
deriving DecidableEq

/-- The slices of the database the generate handler reads and writes. -/
structure Db where
  sites : List SiteRow
  versions : List SiteVersionRow
deriving DecidableEq

/-- Fold step of the descending-order findFirst: keep the newer of the
head row and the best row so far. -/
def pickNewer (v : SiteVersionRow) : Option SiteVersionRow → Option SiteVersionRow
  | none => some v
  | some w => if v.versionNumber < w.versionNumber then some w else some v

/-- The Prisma findFirst over SiteVersion filtered by siteId and ordered by
versionNumber descending: a row of the site with maximal version number
(also the shape of the take-1 include on the site query). -/
def maxVersionRow (sid : String) : List SiteVersionRow → Option SiteVersionRow
  | [] => none
  | v :: rest =>
    if v.siteId == sid then pickNewer v (maxVersionRow sid rest)
    else maxVersionRow sid rest

/-- pickNewer always yields a row. -/
theorem pickNewer_ne_none (v : SiteVersionRow) (m : Option SiteVersionRow) :
    pickNewer v m ≠ none := by
  cases m with
  | none => simp [pickNewer]
  | some w =>
    simp only [pickNewer]
    split_ifs <;> simp

/-- maxVersionRow finds nothing exactly when the site has no versions. -/
theorem maxVersionRow_eq_none_iff (sid : String) (vs : List SiteVersionRow) :
    maxVersionRow sid vs = none ↔ ∀ v ∈ vs, v.siteId ≠ sid := by
  induction vs with
  | nil => simp [maxVersionRow]
  | cons v rest ih =>
    by_cases hv : v.siteId = sid
    · simp only [maxVersionRow, hv, beq_self_eq_true, if_true]
      constructor
      · intro hcon
        exact absurd hcon (pickNewer_ne_none v _)
      · intro hall
        exact absurd hv (hall v (List.mem_cons_self v rest))
    · have hvb : (v.siteId == sid) = false := by simp [hv]
      simp only [maxVersionRow, hvb, Bool.false_eq_true, if_false]
      rw [ih]
      constructor
      · intro hall u hu
        rcases List.mem_cons.mp hu with rfl | hu'
        · exact hv
        · exact hall u hu'
      · intro hall u hu
        exact hall u (List.mem_cons_of_mem _ hu)

/-- A row maxVersionRow finds belongs to the site and dominates every row
of the site. -/
theorem maxVersionRow_spec (sid : String) (vs : List SiteVersionRow)
    (m : SiteVersionRow) (h : maxVersionRow sid vs = some m) :
    m ∈ vs ∧ m.siteId = sid
      ∧ ∀ v ∈ vs, v.siteId = sid → v.versionNumber ≤ m.versionNumber := by
  induction vs generalizing m with
  | nil => simp [maxVersionRow] at h
  | cons v rest ih =>
    by_cases hv : v.siteId = sid
    · rw [maxVersionRow] at h
      simp only [hv, beq_self_eq_true, if_true] at h
      cases hm : maxVersionRow sid rest with
      | none =>
        rw [hm] at h
        simp only [pickNewer, Option.some_inj] at h
        subst h
        have hnone := (maxVersionRow_eq_none_iff sid rest).mp hm
        refine ⟨List.mem_cons_self _ _, hv, ?_⟩
        intro u hu hus
        rcases List.mem_cons.mp hu with rfl | hu'
        · exact le_refl _
        · exact absurd hus (hnone u hu')
      | some w =>
        rw [hm] at h
        obtain ⟨hwmem, hwsid, hwmax⟩ := ih w hm
        simp only [pickNewer] at h
        split_ifs at h with hlt
        · rw [Option.some_inj] at h
          subst h
          refine ⟨List.mem_cons_of_mem _ hwmem, hwsid, ?_⟩
          intro u hu hus
          rcases List.mem_cons.mp hu with rfl | hu'
          · exact le_of_lt hlt
          · exact hwmax u hu' hus
        · rw [Option.some_inj] at h
          subst h
          refine ⟨List.mem_cons_self _ _, hv, ?_⟩
          intro u hu hus
          rcases List.mem_cons.mp hu with rfl | hu'
          · exact le_refl _
          · exact le_trans (hwmax u hu' hus) (le_of_not_lt hlt)
    · have hvb : (v.siteId == sid) = false := by simp [hv]
      rw [maxVersionRow] at h
      simp only [hvb, Bool.false_eq_true, if_false] at h
      obtain ⟨hmem, hsid, hmax⟩ := ih m h
      refine ⟨List.mem_cons_of_mem _ hmem, hsid, ?_⟩
      intro u hu hus
      rcases List.mem_cons.mp hu with rfl | hu'
      · exact absurd hus hv
      · exact hmax u hu' hus

/-- Result of a successful generate handler run: the updated database and
the created version row. -/
structure GenerateResult where
  db : Db
  version : SiteVersionRow
deriving DecidableEq

/-- The settings handleGenerate uses: the metadata settings when present,
else those of the latest version's page JSON. -/
def settingsForGenerate (db : Db) (siteId : String)
    (metaSettings : Option SiteSettings) : Option SiteSettings :=
  match metaSettings with
  | some s => some s
  | none =>
    (maxVersionRow siteId db.versions).map (fun (v : SiteVersionRow) => v.pageJson.settings)

/-- The next version number of handleGenerate: the or-chain maxVersion
question-mark versionNumber or zero (the JS falsiness collapses a zero
number to zero) plus one. -/
def nextVersionNumber (db : Db) (siteId : String) : Int :=
  (match maxVersionRow siteId db.versions with
    | none => 0
    | some m => if m.versionNumber = 0 then 0 else m.versionNumber) + 1

/-- handleGenerate of JobsProcessor: load the site (else throw), take the
settings from the metadata or from the latest version's page JSON (else
throw), generate content, create the version row with the next version
number and point the site at it with status draft.  newVersionId stands for
the cuid Prisma mints for the created row; the id counter threads the AI
generation. -/
def handleGenerate (env : AiEnv) (db : Db) (siteId : String) (newVersionId : String)
    (metaSettings : Option SiteSettings) (k : Nat) :
    Except String (GenerateResult × Nat) :=
  match db.sites.find? (fun s => s.id == siteId) with
  | none => Except.error "Site not found"
  | some site =>
    match settingsForGenerate db siteId metaSettings with
    | none => Except.error "No settings found for generation"
    | some settings =>
      let contentRun := (generateSiteContent env settings).run k
      let version : SiteVersionRow :=
        SiteVersionRow.mk newVersionId siteId (nextVersionNumber db siteId) contentRun.1
      let site' : SiteRow :=
        { site with status := SiteStatus.draft, currentVersionId := some newVersionId }
      let db' : Db :=
        Db.mk (db.sites.map (fun (s : SiteRow) => if s.id == siteId then site' else s))
          (db.versions ++ [version])
      Except.ok (GenerateResult.mk db' version, contentRun.2)

/-- C10: version numbering is strictly increasing: a successful generate
run creates a version numbered one above the site's current maximum (one
when the site has none), strictly above every existing version of the site,
appends it to the version table, and points the site at it with status
draft. -/
theorem handleGenerate_version_increasing (env : AiEnv) (db : Db)
    (siteId newVersionId : String) (metaSettings : Option SiteSettings) (k : Nat)
    (res : GenerateResult) (k' : Nat)
    (h : handleGenerate env db siteId newVersionId metaSettings k = Except.ok (res, k')) :
    res.version.siteId = siteId
    ∧ res.version.id = newVersionId
    ∧ ((∀ v ∈ db.versions, v.siteId ≠ siteId) → res.version.versionNumber = 1)
    ∧ (∀ v ∈ db.versions, v.siteId = siteId →
        v.versionNumber < res.version.versionNumber)
    ∧ (∀ m, maxVersionRow siteId db.versions = some m →
        res.version.versionNumber = m.versionNumber + 1)
    ∧ res.db.versions = db.versions ++ [res.version]
    ∧ (∀ s ∈ res.db.sites, s.id = siteId →
        s.status = SiteStatus.draft ∧ s.currentVersionId = some newVersionId) := by
  rw [handleGenerate] at h
  cases hfind : db.sites.find? (fun s => s.id == siteId) with
  | none =>
    rw [hfind] at h
    exact absurd h (by simp)
  | some site =>
    rw [hfind] at h
    cases hset : settingsForGenerate db siteId metaSettings with
    | none =>
      rw [hset] at h
      exact absurd h (by simp)
    | some settings =>
      rw [hset] at h
      simp only [Except.ok.injEq, Prod.mk.injEq] at h
      obtain ⟨hres, -⟩ := h
      subst hres
      refine ⟨rfl, rfl, ?_, ?_, ?_, rfl, ?_⟩
      · intro hnone
        have hm : maxVersionRow siteId db.versions = none :=
          (maxVersionRow_eq_none_iff siteId db.versions).mpr hnone
        simp [nextVersionNumber, hm]
      · intro v hv hvs
        cases hm : maxVersionRow siteId db.versions with
        | none =>
          exact absurd hvs ((maxVersionRow_eq_none_iff siteId db.versions).mp hm v hv)
        | some m =>
          obtain ⟨-, -, hmax⟩ := maxVersionRow_spec siteId db.versions m hm
          have hle : v.versionNumber ≤ m.versionNumber := hmax v hv hvs
          show v.versionNumber < nextVersionNumber db siteId
          rw [nextVersionNumber, hm]
          by_cases h0 : m.versionNumber = 0 <;> simp [h0] <;> omega
      · intro m hm
        show nextVersionNumber db siteId = m.versionNumber + 1
        rw [nextVersionNumber, hm]
        by_cases h0 : m.versionNumber = 0 <;> simp [h0]
      · intro s hs hsid
        simp only [List.mem_map] at hs
        obtain ⟨s0, hs0mem, hs0⟩ := hs
        by_cases hid : s0.id = siteId
        · rw [if_pos (by simp [hid])] at hs0
          rw [← hs0]
          exact ⟨rfl, rfl⟩
        · rw [if_neg (by simp [hid])] at hs0
          rw [← hs0] at hsid
          exact absurd hsid hid

/-- Witness for handleGenerate_version_increasing: a site with no versions
receives version number one. -/
theorem handleGenerate_version_increasing_app :
    Except.map (fun (r : GenerateResult × Nat) => r.1.version.versionNumber)
      (handleGenerate (AiEnv.mk false (Except.ok "") (fun _ => none) (fun _ => "x") 2025)
        (Db.mk [SiteRow.mk "s1" SiteStatus.provisioning none] [])
        "s1" "v1" (some ⟨"Acme", "Ind", "modern", "#fff", "call", "e", "p"⟩) 0)
      = Except.ok 1 := by
  have hok : (handleGenerate (AiEnv.mk false (Except.ok "") (fun _ => none) (fun _ => "x") 2025)
      (Db.mk [SiteRow.mk "s1" SiteStatus.provisioning none] [])
      "s1" "v1" (some ⟨"Acme", "Ind", "modern", "#fff", "call", "e", "p"⟩) 0).isOk = true := by
    rfl
  cases hEq : handleGenerate (AiEnv.mk false (Except.ok "") (fun _ => none) (fun _ => "x") 2025)
      (Db.mk [SiteRow.mk "s1" SiteStatus.provisioning none] [])
      "s1" "v1" (some ⟨"Acme", "Ind", "modern", "#fff", "call", "e", "p"⟩) 0 with
  | error e =>
    rw [hEq] at hok
    exact Bool.noConfusion hok
  | ok p =>
    have hEq' : handleGenerate (AiEnv.mk false (Except.ok "") (fun _ => none) (fun _ => "x") 2025)
        (Db.mk [SiteRow.mk "s1" SiteStatus.provisioning none] [])
        "s1" "v1" (some ⟨"Acme", "Ind", "modern", "#fff", "call", "e", "p"⟩) 0
        = Except.ok (p.1, p.2) := by rw [hEq]
    have hone := (handleGenerate_version_increasing
      (AiEnv.mk false (Except.ok "") (fun _ => none) (fun _ => "x") 2025)
      (Db.mk [SiteRow.mk "s1" SiteStatus.provisioning none] [])
      "s1" "v1" (some ⟨"Acme", "Ind", "modern", "#fff", "call", "e", "p"⟩) 0
      p.1 p.2 hEq').2.2.1 (by simp)
    simp [Except.map, hone]

end Builder
